import Mathlib

/-!
Verification of the unienv core (`src/index.ts`): runtime dispatch,
version gating, and result normalization for environment-variable
access across the node, bun and deno runtimes.

The embedding translates `src/index.ts` directly.  The external
collaborators (`Commons.env.*`, `Utils.loadEnvIfNeeded`,
`Commons.permissions`, living in `commons.ts` / `utils.ts`, which are
not part of the sources here) are modelled at their interface boundary
as an `Adapter` record of fallible operations; each handler threads an
explicit `Store` and records every collaborator call in an event trace,
so that call-count and no-mutation properties are provable.
-/

namespace Unienv

/-- Process-wide environment store state: the host's environment table
plus a flag recording whether the conditional env-file load has already
happened (the loader is idempotent). -/
structure Store where
  table : String → Option String
  loaded : Bool

/-- Property bag for `VersionError` (`versionErrorProp` in `index.ts`). -/
structure VersionErrorProp where
  runtime : String
  require : String
  current : String
  deriving DecidableEq

/-- Message built by the `VersionError` constructor in `index.ts`. -/
def versionErrorMessage (p : VersionErrorProp) : String :=
  p.runtime ++ " version " ++ p.require ++ " or higher is required. Current version: " ++ p.current

/-- The two error kinds of the system: `VersionError` (version
deficiency) and a generic `Error` wrapping a collaborator exception
message. -/
inductive UniError where
  | versionError (p : VersionErrorProp)
  | genericError (message : String)
  deriving DecidableEq

/-- Message carried by an error value. -/
def UniError.message : UniError → String
  | versionError p => versionErrorMessage p
  | genericError m => m

/-- Result type of `types.ts` (`Result<T, E>` with variants `Ok` / `Ng`):
a success-or-error container, so no exception crosses the public
boundary. -/
inductive Result (α : Type) where
  | Ok (value : α)
  | Ng (error : UniError)
  deriving DecidableEq

/-- Host facts resolved once at startup: the runtime identity
(`RuntimeName`), the version descriptor reported by
`Commons.runtime.version()`, and `process.execArgv` (consulted by the
node `get` handler). -/
structure HostInfo where
  runtimeName : String
  requireVersion : String
  currentVersion : String
  execArgv : List String

/-- Splits a character list on the dot character (spec-modelled piece of
version-string parsing; structural so that it evaluates). -/
def splitDots (l : List Char) : List (List Char) :=
  match l with
  | [] => [[]]
  | ch :: rest =>
    let r := splitDots rest
    if ch = '.' then [] :: r
    else
      match r with
      | [] => [[ch]]
      | g :: gs => (ch :: g) :: gs

/-- Reads a decimal digit string as a number. -/
def digitsToNat (l : List Char) : Nat :=
  l.foldl (fun acc ch => acc * 10 + (ch.toNat - 48)) 0

/-- Parses a `MAJOR.MINOR.PATCH` string into its three numeric
components (malformed input is a caller contract violation per the
spec; such inputs default to zeros). -/
def parseVersion (s : String) : Nat × Nat × Nat :=
  match (splitDots s.data).map digitsToNat with
  | [a, b, c] => (a, b, c)
  | _ => (0, 0, 0)

/-- Modelled from the spec: the Version Comparator
`Utils.versioning.moreThan` lives in `utils.ts`, which is not among the
sources; per §4.1 it takes `(require, current)` in semantic
`MAJOR.MINOR.PATCH` form and returns true if `current` is greater than
or equal to `require`, comparing major first, then minor, then patch,
each numerically as integers. -/
def moreThan (requireVer currentVer : String) : Bool :=
  let r := parseVersion requireVer
  let c := parseVersion currentVer
  if r.1 ≠ c.1 then decide (r.1 < c.1)
  else if r.2.1 ≠ c.2.1 then decide (r.2.1 < c.2.1)
  else decide (r.2.2 ≤ c.2.2)

/-- Modelled from the spec: `Utils.ucFirst` lives in `utils.ts`, which
is not among the sources; per §4.2 it capitalizes the runtime
identifier (first character uppercased). -/
def ucFirst (s : String) : String :=
  match s.data with
  | [] => s
  | ch :: rest => String.mk (ch.toUpper :: rest)

/-- The `runtime` display-name constant of `index.ts`:
`ucFirst(RuntimeName === "node" ? RuntimeName + ".js" : RuntimeName)`. -/
def runtimeDisplayName (h : HostInfo) : String :=
  ucFirst (if h.runtimeName = "node" then h.runtimeName ++ ".js" else h.runtimeName)

/-- The `genericVersionError` property bag of `index.ts`. -/
def genericVersionError (h : HostInfo) : VersionErrorProp :=
  { runtime := runtimeDisplayName h
    require := h.requireVersion
    current := h.currentVersion }

/-- The `nodeVersionError` property bag of `index.ts`: same runtime and
current version, required version fixed to `"20.6.0"`. -/
def nodeVersionError (h : HostInfo) : VersionErrorProp :=
  { runtime := runtimeDisplayName h
    require := "20.6.0"
    current := h.currentVersion }

/-- The `isSatisfiesVersion` constant of `index.ts`:
`Utils.versioning.moreThan(version.require, version.current)`. -/
def isSatisfiesVersion (h : HostInfo) : Bool :=
  moreThan h.requireVersion h.currentVersion

/-- Character-list version of the JS string method `startsWith`
(structural so that it evaluates): does the first list begin with the
second? -/
def charsStartWith : List Char → List Char → Bool
  | _, [] => true
  | [], _ :: _ => false
  | a :: as, p :: ps => decide (a = p) && charsStartWith as ps

/-- The JS `execArg.startsWith("--env-file=")` test used by the node
get handler: does `s` begin with the pattern `pat`? -/
def strStartsWith (s pat : String) : Bool :=
  charsStartWith s.data pat.data

/-- Events: one per collaborator call a handler can perform, recorded in
the order the calls happen. -/
inductive Event where
  | loaderCall
  | permCall (name : String)
  | envGetCall (key : String)
  | envSetCall (key value : String)
  | envDeleteCall (key : String)
  deriving DecidableEq

/-- Interface boundary of the external collaborators consumed by
`index.ts` (spec §6): the Environment Store Adapter (`Commons.env.*`),
the Conditional Env-File Loader (`Utils.loadEnvIfNeeded`) and the
Permission Gate (`Commons.permissions`).  Each may throw, modelled by
`Except` with the exception message. -/
structure Adapter where
  envGet : String → Store → Except String (Option String)
  envSet : String → String → Store → Except String Store
  envDelete : String → Store → Except String Store
  loadEnvIfNeeded : Store → Except String Store
  permissionQuery : String → Except String String

/-- Everything a handler closes over: the startup-resolved host facts
and the collaborator implementations. -/
structure Ctx where
  host : HostInfo
  adapter : Adapter

/-- Outcome of one handler call: the returned `Result`, the store after
the call, and the trace of collaborator calls made. -/
abbrev Outcome (α : Type) := Result α × Store × List Event

/-- A per-runtime handler table keyed by the three runtime identities. -/
structure RuntimeMap (α : Type) where
  node : α
  bun : α
  deno : α

/-- The `setRuntimeMap` of `index.ts`: all three entries gate on
`isSatisfiesVersion`, then delegate to the adapter's `set`, wrapping a
thrown exception's message in a generic `Error`. -/
def setRuntimeMap (c : Ctx) : RuntimeMap (String → String → Store → Outcome Unit) :=
  { node := fun key value s =>
      if !isSatisfiesVersion c.host then
        (Result.Ng (UniError.versionError (genericVersionError c.host)), s, [])
      else
        match c.adapter.envSet key value s with
        | Except.ok s1 => (Result.Ok (), s1, [Event.envSetCall key value])
        | Except.error m => (Result.Ng (UniError.genericError m), s, [Event.envSetCall key value])
    bun := fun key value s =>
      if !isSatisfiesVersion c.host then
        (Result.Ng (UniError.versionError (genericVersionError c.host)), s, [])
      else
        match c.adapter.envSet key value s with
        | Except.ok s1 => (Result.Ok (), s1, [Event.envSetCall key value])
        | Except.error m => (Result.Ng (UniError.genericError m), s, [Event.envSetCall key value])
    deno := fun key value s =>
      if !isSatisfiesVersion c.host then
        (Result.Ng (UniError.versionError (genericVersionError c.host)), s, [])
      else
        match c.adapter.envSet key value s with
        | Except.ok s1 => (Result.Ok (), s1, [Event.envSetCall key value])
        | Except.error m => (Result.Ng (UniError.genericError m), s, [Event.envSetCall key value]) }

/-- The `getRuntimeMap` of `index.ts`.  The node handler checks
`process.execArgv` for a `--env-file=` argument: if present it calls
the adapter's `get` directly, turning an exception into a
`VersionError` built from `nodeVersionError`; otherwise it first calls
`Utils.loadEnvIfNeeded()`, wrapping exceptions generically.  The bun
handler delegates directly.  The deno handler queries
`Commons.permissions({name: "read"})` and loads the env file only when
the answer is `"granted"`, all inside one try/catch wrapping
exceptions generically. -/
def getRuntimeMap (c : Ctx) : RuntimeMap (String → Store → Outcome (Option String)) :=
  { node := fun key s =>
      if !isSatisfiesVersion c.host then
        (Result.Ng (UniError.versionError (genericVersionError c.host)), s, [])
      else
        let envFileSpecified := c.host.execArgv.filter (fun a => strStartsWith a "--env-file=")
        if envFileSpecified.length ≠ 0 then
          match c.adapter.envGet key s with
          | Except.ok v => (Result.Ok v, s, [Event.envGetCall key])
          | Except.error _ =>
            (Result.Ng (UniError.versionError (nodeVersionError c.host)), s, [Event.envGetCall key])
        else
          match c.adapter.loadEnvIfNeeded s with
          | Except.error m => (Result.Ng (UniError.genericError m), s, [Event.loaderCall])
          | Except.ok s1 =>
            match c.adapter.envGet key s1 with
            | Except.ok v => (Result.Ok v, s1, [Event.loaderCall, Event.envGetCall key])
            | Except.error m =>
              (Result.Ng (UniError.genericError m), s1, [Event.loaderCall, Event.envGetCall key])
    bun := fun key s =>
      if !isSatisfiesVersion c.host then
        (Result.Ng (UniError.versionError (genericVersionError c.host)), s, [])
      else
        match c.adapter.envGet key s with
        | Except.ok v => (Result.Ok v, s, [Event.envGetCall key])
        | Except.error m => (Result.Ng (UniError.genericError m), s, [Event.envGetCall key])
    deno := fun key s =>
      if !isSatisfiesVersion c.host then
        (Result.Ng (UniError.versionError (genericVersionError c.host)), s, [])
      else
        match c.adapter.permissionQuery "read" with
        | Except.error m => (Result.Ng (UniError.genericError m), s, [Event.permCall "read"])
        | Except.ok perm =>
          if perm = "granted" then
            match c.adapter.loadEnvIfNeeded s with
            | Except.error m =>
              (Result.Ng (UniError.genericError m), s, [Event.permCall "read", Event.loaderCall])
            | Except.ok s1 =>
              match c.adapter.envGet key s1 with
              | Except.ok v =>
                (Result.Ok v, s1, [Event.permCall "read", Event.loaderCall, Event.envGetCall key])
              | Except.error m =>
                (Result.Ng (UniError.genericError m), s1,
                  [Event.permCall "read", Event.loaderCall, Event.envGetCall key])
          else
            match c.adapter.envGet key s with
            | Except.ok v => (Result.Ok v, s, [Event.permCall "read", Event.envGetCall key])
            | Except.error m =>
              (Result.Ng (UniError.genericError m), s, [Event.permCall "read", Event.envGetCall key]) }

/-- The `deleteRuntimeMap` of `index.ts`: all three entries gate on
`isSatisfiesVersion`, then delegate to the adapter's `delete`, wrapping
a thrown exception's message in a generic `Error`. -/
def deleteRuntimeMap (c : Ctx) : RuntimeMap (String → Store → Outcome Unit) :=
  { node := fun key s =>
      if !isSatisfiesVersion c.host then
        (Result.Ng (UniError.versionError (genericVersionError c.host)), s, [])
      else
        match c.adapter.envDelete key s with
        | Except.ok s1 => (Result.Ok (), s1, [Event.envDeleteCall key])
        | Except.error m => (Result.Ng (UniError.genericError m), s, [Event.envDeleteCall key])
    bun := fun key s =>
      if !isSatisfiesVersion c.host then
        (Result.Ng (UniError.versionError (genericVersionError c.host)), s, [])
      else
        match c.adapter.envDelete key s with
        | Except.ok s1 => (Result.Ok (), s1, [Event.envDeleteCall key])
        | Except.error m => (Result.Ng (UniError.genericError m), s, [Event.envDeleteCall key])
    deno := fun key s =>
      if !isSatisfiesVersion c.host then
        (Result.Ng (UniError.versionError (genericVersionError c.host)), s, [])
      else
        match c.adapter.envDelete key s with
        | Except.ok s1 => (Result.Ok (), s1, [Event.envDeleteCall key])
        | Except.error m => (Result.Ng (UniError.genericError m), s, [Event.envDeleteCall key]) }

/-- Record indexing `map[RuntimeName]` with the optional-chaining
semantics of `index.ts`: the three known keys map to their handlers,
anything else to `none` (JS `undefined`). -/
def runtimeMapLookup {α : Type} (m : RuntimeMap α) (name : String) : Option α :=
  if name = "node" then some m.node
  else if name = "bun" then some m.bun
  else if name = "deno" then some m.deno
  else none

/-- The facade `UniEnv.set`: `setRuntimeMap[RuntimeName]?.(key, value)`. -/
def UniEnv.set (c : Ctx) (key value : String) (s : Store) : Option (Outcome Unit) :=
  match runtimeMapLookup (setRuntimeMap c) c.host.runtimeName with
  | some f => some (f key value s)
  | none => none

/-- The facade `UniEnv.get`: `getRuntimeMap[RuntimeName]?.(key)`. -/
def UniEnv.get (c : Ctx) (key : String) (s : Store) : Option (Outcome (Option String)) :=
  match runtimeMapLookup (getRuntimeMap c) c.host.runtimeName with
  | some f => some (f key s)
  | none => none

/-- The facade `UniEnv.delete`: `deleteRuntimeMap[RuntimeName]?.(key)`. -/
def UniEnv.delete (c : Ctx) (key : String) (s : Store) : Option (Outcome Unit) :=
  match runtimeMapLookup (deleteRuntimeMap c) c.host.runtimeName with
  | some f => some (f key s)
  | none => none

/-- Store update performed by a successful adapter `set`. -/
def stdStoreSet (key value : String) (s : Store) : Store :=
  { s with table := fun k => if k = key then some value else s.table k }

/-- Store update performed by a successful adapter `delete`. -/
def stdStoreDelete (key : String) (s : Store) : Store :=
  { s with table := fun k => if k = key then none else s.table k }

/-- Modelled from the spec: the Conditional Env-File Loader
(`Utils.loadEnvIfNeeded` in `utils.ts`, not among the sources) parses
the `.env` file into the store on demand and is idempotent; dotenv-style
loading does not override variables already present in the table. -/
def stdLoad (file : String → Option String) (s : Store) : Store :=
  if s.loaded then s
  else
    { table := fun k =>
        match s.table k with
        | some v => some v
        | none => file k
      loaded := true }

/-- Modelled from the spec: an honest host (`commons.ts` is not among
the sources) — the Environment Store Adapter reads, writes and deletes
on the process-wide table without throwing, the loader behaves as
`stdLoad`, and the Permission Gate answers the constant `perm`. -/
def stdAdapter (file : String → Option String) (perm : String) : Adapter :=
  { envGet := fun key s => Except.ok (s.table key)
    envSet := fun key value s => Except.ok (stdStoreSet key value s)
    envDelete := fun key s => Except.ok (stdStoreDelete key s)
    loadEnvIfNeeded := fun s => Except.ok (stdLoad file s)
    permissionQuery := fun _ => Except.ok perm }

/-- A context over the honest host model. -/
def stdCtx (name requireVer currentVer : String) (argv : List String)
    (file : String → Option String) (perm : String) : Ctx :=
  { host :=
      { runtimeName := name
        requireVersion := requireVer
        currentVersion := currentVer
        execArgv := argv }
    adapter := stdAdapter file perm }

/-- Helper: a list whose member satisfies the filter has a filter of
nonzero length. -/
lemma filter_length_ne_zero_of_mem {p : String → Bool} {l : List String} {a : String}
    (ha : a ∈ l) (hpa : p a = true) : (l.filter p).length ≠ 0 := by
  have h : a ∈ l.filter p := List.mem_filter.mpr ⟨ha, hpa⟩
  intro hlen
  rw [List.length_eq_zero] at hlen
  simp [hlen] at h

/-- Helper: a list none of whose members satisfies the filter has an
empty filter. -/
lemma filter_eq_nil_of_forall {p : String → Bool} {l : List String}
    (h : ∀ a ∈ l, p a = false) : l.filter p = [] := by
  rw [List.filter_eq_nil_iff]
  intro a ha
  simp [h a ha]

/-- Example host whose current version is below the requirement. -/
def exBadHost : HostInfo :=
  { runtimeName := "node"
    requireVersion := "20.6.0"
    currentVersion := "18.0.0"
    execArgv := [] }

/-- Example host meeting the requirement. -/
def exGoodHost : HostInfo :=
  { runtimeName := "node"
    requireVersion := "20.6.0"
    currentVersion := "22.1.0"
    execArgv := [] }

/-- Example honest adapter over an empty env file. -/
def exAdapter : Adapter := stdAdapter (fun _ => none) "granted"

/-- Example context on the version-deficient host. -/
def exBadCtx : Ctx := { host := exBadHost, adapter := exAdapter }

/-- Example context on the satisfying host. -/
def exGoodCtx : Ctx := { host := exGoodHost, adapter := exAdapter }

/-- Example context with a runtime identity outside the three tables. -/
def exZigCtx : Ctx :=
  { host :=
      { runtimeName := "zig"
        requireVersion := "20.6.0"
        currentVersion := "22.1.0"
        execArgv := [] }
    adapter := exAdapter }

/-- Example empty store. -/
def exStore : Store := { table := fun _ => none, loaded := false }

/-- C9: the two version-deficiency profiles carry the same display name
(the runtime identifier capitalized, with ".js" appended for node) and
the same current version; they differ only in the required version —
"20.6.0" for the node-specific profile, the reported requirement for
the generic one — and the error message has the fixed shape
"runtime version require or higher is required. Current version:
current". -/
theorem versionErrorProfilesAgree (h : HostInfo) :
    (genericVersionError h).runtime = (nodeVersionError h).runtime ∧
    (genericVersionError h).current = (nodeVersionError h).current ∧
    (genericVersionError h).runtime =
      ucFirst (if h.runtimeName = "node" then h.runtimeName ++ ".js" else h.runtimeName) ∧
    (genericVersionError h).require = h.requireVersion ∧
    (nodeVersionError h).require = "20.6.0" ∧
    (∀ p : VersionErrorProp, versionErrorMessage p =
      p.runtime ++ " version " ++ p.require ++
        " or higher is required. Current version: " ++ p.current) :=
  ⟨rfl, rfl, rfl, rfl, rfl, fun _ => rfl⟩

/-- C6: the Version Comparator answers true exactly when the current
version is at least the required one, comparing major, then minor, then
patch numerically as integers; and the wrapper `isSatisfiesVersion`
passes the required version and the current version to it in that
order. -/
theorem moreThanNumericCharacterization (requireVer currentVer : String)
    (a b c d e f : Nat)
    (hr : parseVersion requireVer = (a, b, c))
    (hc : parseVersion currentVer = (d, e, f)) :
    (moreThan requireVer currentVer = true ↔
      (a < d ∨ (a = d ∧ (b < e ∨ (b = e ∧ c ≤ f))))) ∧
    (∀ h : HostInfo, isSatisfiesVersion h = moreThan h.requireVersion h.currentVersion) := by
  constructor
  · unfold moreThan
    rw [hr, hc]
    by_cases h1 : a = d <;> by_cases h2 : b = e <;> simp [h1, h2]
  · intro h
    rfl

/-- Witness for C6 at the spec's own example: "1.10.0" satisfies a
"1.2.0" requirement because minor 10 is compared as the number ten. -/
theorem moreThanNumericCharacterizationWitness :
    moreThan "1.2.0" "1.10.0" = true :=
  ((moreThanNumericCharacterization "1.2.0" "1.10.0" 1 2 0 1 10 0
    (by decide) (by decide)).1).mpr (by omega)

/-- C1: when the version-satisfaction check fails, every operation on
every runtime returns the generic version-deficiency failure, leaves
the store untouched, and performs no collaborator call at all. -/
theorem versionGateBlocksAllOperations (c : Ctx) (key value : String) (s : Store)
    (hbad : isSatisfiesVersion c.host = false) :
    (setRuntimeMap c).node key value s =
      (Result.Ng (UniError.versionError (genericVersionError c.host)), s, []) ∧
    (setRuntimeMap c).bun key value s =
      (Result.Ng (UniError.versionError (genericVersionError c.host)), s, []) ∧
    (setRuntimeMap c).deno key value s =
      (Result.Ng (UniError.versionError (genericVersionError c.host)), s, []) ∧
    (getRuntimeMap c).node key s =
      (Result.Ng (UniError.versionError (genericVersionError c.host)), s, []) ∧
    (getRuntimeMap c).bun key s =
      (Result.Ng (UniError.versionError (genericVersionError c.host)), s, []) ∧
    (getRuntimeMap c).deno key s =
      (Result.Ng (UniError.versionError (genericVersionError c.host)), s, []) ∧
    (deleteRuntimeMap c).node key s =
      (Result.Ng (UniError.versionError (genericVersionError c.host)), s, []) ∧
    (deleteRuntimeMap c).bun key s =
      (Result.Ng (UniError.versionError (genericVersionError c.host)), s, []) ∧
    (deleteRuntimeMap c).deno key s =
      (Result.Ng (UniError.versionError (genericVersionError c.host)), s, []) := by
  simp [setRuntimeMap, getRuntimeMap, deleteRuntimeMap, hbad]

/-- Witness for C1 on a concrete version-deficient host. -/
theorem versionGateBlocksAllOperationsWitness :
    (setRuntimeMap exBadCtx).node "KEY" "VAL" exStore =
      (Result.Ng (UniError.versionError (genericVersionError exBadCtx.host)), exStore, []) ∧
    (getRuntimeMap exBadCtx).deno "KEY" exStore =
      (Result.Ng (UniError.versionError (genericVersionError exBadCtx.host)), exStore, []) :=
  ⟨(versionGateBlocksAllOperations exBadCtx "KEY" "VAL" exStore (by decide)).1,
   (versionGateBlocksAllOperations exBadCtx "KEY" "VAL" exStore (by decide)).2.2.2.2.2.1⟩

/-- C10: each facade operation is a pure dispatch — for each of the
three runtime identities it returns exactly the corresponding handler's
result on the same arguments, and for any identity outside the three
table keys it returns `none` without producing any error result. -/
theorem facadeDispatchEquivalence (c : Ctx) (key value : String) (s : Store) :
    (c.host.runtimeName = "node" →
      UniEnv.set c key value s = some ((setRuntimeMap c).node key value s) ∧
      UniEnv.get c key s = some ((getRuntimeMap c).node key s) ∧
      UniEnv.delete c key s = some ((deleteRuntimeMap c).node key s)) ∧
    (c.host.runtimeName = "bun" →
      UniEnv.set c key value s = some ((setRuntimeMap c).bun key value s) ∧
      UniEnv.get c key s = some ((getRuntimeMap c).bun key s) ∧
      UniEnv.delete c key s = some ((deleteRuntimeMap c).bun key s)) ∧
    (c.host.runtimeName = "deno" →
      UniEnv.set c key value s = some ((setRuntimeMap c).deno key value s) ∧
      UniEnv.get c key s = some ((getRuntimeMap c).deno key s) ∧
      UniEnv.delete c key s = some ((deleteRuntimeMap c).deno key s)) ∧
    (c.host.runtimeName ≠ "node" → c.host.runtimeName ≠ "bun" →
      c.host.runtimeName ≠ "deno" →
      UniEnv.set c key value s = none ∧
      UniEnv.get c key s = none ∧
      UniEnv.delete c key s = none) := by
  refine ⟨fun h => ?_, fun h => ?_, fun h => ?_, fun h1 h2 h3 => ?_⟩
  · simp [UniEnv.set, UniEnv.get, UniEnv.delete, runtimeMapLookup, h]
  · simp [UniEnv.set, UniEnv.get, UniEnv.delete, runtimeMapLookup, h]
  · simp [UniEnv.set, UniEnv.get, UniEnv.delete, runtimeMapLookup, h]
  · simp [UniEnv.set, UniEnv.get, UniEnv.delete, runtimeMapLookup, h1, h2, h3]

/-- Witness for C10: dispatch on a node host, and `none` on an unknown
runtime identity. -/
theorem facadeDispatchEquivalenceWitness :
    UniEnv.set exGoodCtx "KEY" "VAL" exStore =
      some ((setRuntimeMap exGoodCtx).node "KEY" "VAL" exStore) ∧
    UniEnv.set exZigCtx "KEY" "VAL" exStore = none :=
  ⟨((facadeDispatchEquivalence exGoodCtx "KEY" "VAL" exStore).1 rfl).1,
   ((facadeDispatchEquivalence exZigCtx "KEY" "VAL" exStore).2.2.2
     (by decide) (by decide) (by decide)).1⟩

/-- C2: the node get handler skips the Conditional Env-File Loader and
calls the adapter's get directly when some startup argument starts with
"--env-file="; when no such argument is present it invokes the loader
exactly once, before the adapter's get. -/
theorem getNodeLoaderInvocation (c : Ctx) (key : String) (s : Store)
    (hsat : isSatisfiesVersion c.host = true) :
    ((∃ a, a ∈ c.host.execArgv ∧ strStartsWith a "--env-file=" = true) →
      ((getRuntimeMap c).node key s).2.2 = [Event.envGetCall key]) ∧
    ((∀ a, a ∈ c.host.execArgv → strStartsWith a "--env-file=" = false) →
      ((getRuntimeMap c).node key s).2.2 = [Event.loaderCall] ∨
      ((getRuntimeMap c).node key s).2.2 = [Event.loaderCall, Event.envGetCall key]) := by
  constructor
  · rintro ⟨a, ha, hpa⟩
    have hne : (c.host.execArgv.filter (fun x => strStartsWith x "--env-file=")).length ≠ 0 :=
      filter_length_ne_zero_of_mem ha hpa
    cases hget : c.adapter.envGet key s <;>
      simp [getRuntimeMap, hsat, hne, hget]
  · intro hall
    have hnil : c.host.execArgv.filter (fun x => strStartsWith x "--env-file=") = [] :=
      filter_eq_nil_of_forall hall
    cases hload : c.adapter.loadEnvIfNeeded s with
    | error m => simp [getRuntimeMap, hsat, hnil, hload]
    | ok s1 =>
      cases hget : c.adapter.envGet key s1 <;>
        simp [getRuntimeMap, hsat, hnil, hload, hget]

/-- Witness for C2 on a concrete host carrying the flag. -/
theorem getNodeLoaderInvocationWitness :
    (((getRuntimeMap
        { host :=
            { runtimeName := "node"
              requireVersion := "20.6.0"
              currentVersion := "22.1.0"
              execArgv := ["--env-file=.env"] }
          adapter := exAdapter }).node "KEY" exStore).2.2 = [Event.envGetCall "KEY"]) :=
  (getNodeLoaderInvocation
    { host :=
        { runtimeName := "node"
          requireVersion := "20.6.0"
          currentVersion := "22.1.0"
          execArgv := ["--env-file=.env"] }
      adapter := exAdapter } "KEY" exStore (by decide)).1
    ⟨"--env-file=.env", by simp, by decide⟩

/-- C3: in the node get handler, an adapter exception in the
explicit-flag branch becomes a Version Deficiency error built from the
node-specific profile whose required version is "20.6.0"; an exception
in the no-flag branch (loader or adapter) becomes a Generic Failure
carrying the underlying message. -/
theorem getNodeErrorClassification (c : Ctx) (key : String) (s : Store)
    (hsat : isSatisfiesVersion c.host = true) :
    (nodeVersionError c.host).require = "20.6.0" ∧
    ((∃ a, a ∈ c.host.execArgv ∧ strStartsWith a "--env-file=" = true) →
      ∀ m, c.adapter.envGet key s = Except.error m →
        ((getRuntimeMap c).node key s).1 =
          Result.Ng (UniError.versionError (nodeVersionError c.host))) ∧
    ((∀ a, a ∈ c.host.execArgv → strStartsWith a "--env-file=" = false) →
      (∀ m, c.adapter.loadEnvIfNeeded s = Except.error m →
        ((getRuntimeMap c).node key s).1 = Result.Ng (UniError.genericError m)) ∧
      (∀ m s1, c.adapter.loadEnvIfNeeded s = Except.ok s1 →
        c.adapter.envGet key s1 = Except.error m →
        ((getRuntimeMap c).node key s).1 = Result.Ng (UniError.genericError m))) := by
  refine ⟨rfl, ?_, ?_⟩
  · rintro ⟨a, ha, hpa⟩ m hget
    have hne : (c.host.execArgv.filter (fun x => strStartsWith x "--env-file=")).length ≠ 0 :=
      filter_length_ne_zero_of_mem ha hpa
    simp [getRuntimeMap, hsat, hne, hget]
  · intro hall
    have hnil : c.host.execArgv.filter (fun x => strStartsWith x "--env-file=") = [] :=
      filter_eq_nil_of_forall hall
    constructor
    · intro m hload
      simp [getRuntimeMap, hsat, hnil, hload]
    · intro m s1 hload hget
      simp [getRuntimeMap, hsat, hnil, hload, hget]

/-- Witness for C3: a throwing adapter in the flag branch yields the
node-profile version error. -/
theorem getNodeErrorClassificationWitness :
    ((getRuntimeMap
        { host :=
            { runtimeName := "node"
              requireVersion := "20.6.0"
              currentVersion := "22.1.0"
              execArgv := ["--env-file=.env"] }
          adapter :=
            { envGet := fun _ _ => Except.error "boom"
              envSet := fun _ _ _ => Except.error "boom"
              envDelete := fun _ _ => Except.error "boom"
              loadEnvIfNeeded := fun _ => Except.error "boom"
              permissionQuery := fun _ => Except.error "boom" } }).node "KEY" exStore).1 =
      Result.Ng (UniError.versionError (nodeVersionError
        { runtimeName := "node"
          requireVersion := "20.6.0"
          currentVersion := "22.1.0"
          execArgv := ["--env-file=.env"] })) :=
  ((getNodeErrorClassification
    { host :=
        { runtimeName := "node"
          requireVersion := "20.6.0"
          currentVersion := "22.1.0"
          execArgv := ["--env-file=.env"] }
      adapter :=
        { envGet := fun _ _ => Except.error "boom"
          envSet := fun _ _ _ => Except.error "boom"
          envDelete := fun _ _ => Except.error "boom"
          loadEnvIfNeeded := fun _ => Except.error "boom"
          permissionQuery := fun _ => Except.error "boom" } } "KEY" exStore (by decide)).2.1
    ⟨"--env-file=.env", by simp, by decide⟩ "boom" rfl)

/-- Example context on a granted deno host over the honest adapter. -/
def exDenoCtx : Ctx :=
  { host :=
      { runtimeName := "deno"
        requireVersion := "1.30.0"
        currentVersion := "1.40.0"
        execArgv := [] }
    adapter := exAdapter }

/-- Example context on a granted deno host whose adapter throws "boom"
on every call. -/
def exDenoBoomCtx : Ctx :=
  { host :=
      { runtimeName := "deno"
        requireVersion := "1.30.0"
        currentVersion := "1.40.0"
        execArgv := [] }
    adapter :=
      { envGet := fun _ _ => Except.error "boom"
        envSet := fun _ _ _ => Except.error "boom"
        envDelete := fun _ _ => Except.error "boom"
        loadEnvIfNeeded := fun _ => Except.error "boom"
        permissionQuery := fun _ => Except.error "boom" } }

/-- C4: the deno get handler queries the Permission Gate exactly once
per call with capability "read"; when the gate answers, the loader is
invoked iff the answer is "granted" and the adapter's get is then
called in either branch; and any exception thrown — by the permission
query itself, by the loader in the granted branch, or by the adapter's
get in either branch — is wrapped as a Generic Failure. -/
theorem getDenoPermissionGating (c : Ctx) (key : String) (s : Store)
    (hsat : isSatisfiesVersion c.host = true) :
    ((getRuntimeMap c).deno key s).2.2.count (Event.permCall "read") = 1 ∧
    (∀ p, c.adapter.permissionQuery "read" = Except.ok p →
      ((Event.loaderCall ∈ ((getRuntimeMap c).deno key s).2.2 ↔ p = "granted") ∧
       (p ≠ "granted" →
         ((getRuntimeMap c).deno key s).2.2 =
           [Event.permCall "read", Event.envGetCall key]) ∧
       (∀ s1, p = "granted" → c.adapter.loadEnvIfNeeded s = Except.ok s1 →
         ((getRuntimeMap c).deno key s).2.2 =
           [Event.permCall "read", Event.loaderCall, Event.envGetCall key]) ∧
       (∀ m, p ≠ "granted" → c.adapter.envGet key s = Except.error m →
         ((getRuntimeMap c).deno key s).1 = Result.Ng (UniError.genericError m)) ∧
       (∀ m, p = "granted" → c.adapter.loadEnvIfNeeded s = Except.error m →
         ((getRuntimeMap c).deno key s).1 = Result.Ng (UniError.genericError m)) ∧
       (∀ m s1, p = "granted" → c.adapter.loadEnvIfNeeded s = Except.ok s1 →
         c.adapter.envGet key s1 = Except.error m →
         ((getRuntimeMap c).deno key s).1 = Result.Ng (UniError.genericError m)))) ∧
    (∀ m, c.adapter.permissionQuery "read" = Except.error m →
      ((getRuntimeMap c).deno key s).1 = Result.Ng (UniError.genericError m) ∧
      ((getRuntimeMap c).deno key s).2.2 = [Event.permCall "read"]) := by
  refine ⟨?_, ?_, ?_⟩
  · cases hq : c.adapter.permissionQuery "read" with
    | error m => simp [getRuntimeMap, hsat, hq, List.count_cons]
    | ok p =>
      by_cases hp : p = "granted"
      · subst hp
        cases hl : c.adapter.loadEnvIfNeeded s with
        | error m => simp [getRuntimeMap, hsat, hq, hl, List.count_cons]
        | ok s1 =>
          cases hx : c.adapter.envGet key s1 <;>
            simp [getRuntimeMap, hsat, hq, hl, hx, List.count_cons]
      · cases hx : c.adapter.envGet key s <;>
          simp [getRuntimeMap, hsat, hq, hp, hx, List.count_cons]
  · rintro p hq
    by_cases hp : p = "granted"
    · subst hp
      refine ⟨?_, ?_, ?_, ?_, ?_, ?_⟩
      · cases hl : c.adapter.loadEnvIfNeeded s with
        | error m => simp [getRuntimeMap, hsat, hq, hl]
        | ok s1 =>
          cases hx : c.adapter.envGet key s1 <;> simp [getRuntimeMap, hsat, hq, hl, hx]
      · intro hne
        exact absurd rfl hne
      · intro s1 _ hl
        cases hx : c.adapter.envGet key s1 <;> simp [getRuntimeMap, hsat, hq, hl, hx]
      · intro m hne _
        exact absurd rfl hne
      · intro m _ hl
        simp [getRuntimeMap, hsat, hq, hl]
      · intro m s1 _ hl hx
        simp [getRuntimeMap, hsat, hq, hl, hx]
    · refine ⟨?_, ?_, ?_, ?_, ?_, ?_⟩
      · cases hx : c.adapter.envGet key s <;> simp [getRuntimeMap, hsat, hq, hp, hx]
      · intro _
        cases hx : c.adapter.envGet key s <;> simp [getRuntimeMap, hsat, hq, hp, hx]
      · intro s1 hg
        exact absurd hg hp
      · intro m _ hx
        simp [getRuntimeMap, hsat, hq, hp, hx]
      · intro m hg
        exact absurd hg hp
      · intro m s1 hg
        exact absurd hg hp
  · intro m hq
    refine ⟨?_, ?_⟩ <;> simp [getRuntimeMap, hsat, hq]

/-- Witness for C4 on concrete granted hosts: the gate is queried once,
the loader runs in the granted branch, and a throwing permission query
is wrapped as a generic failure carrying its message. -/
theorem getDenoPermissionGatingWitness :
    (((getRuntimeMap exDenoCtx).deno "KEY" exStore).2.2.count (Event.permCall "read") = 1) ∧
    (Event.loaderCall ∈ ((getRuntimeMap exDenoCtx).deno "KEY" exStore).2.2 ↔
      ("granted" : String) = "granted") ∧
    ((getRuntimeMap exDenoBoomCtx).deno "KEY" exStore).1 =
      Result.Ng (UniError.genericError "boom") :=
  ⟨(getDenoPermissionGating exDenoCtx "KEY" exStore (by decide)).1,
   ((getDenoPermissionGating exDenoCtx "KEY" exStore (by decide)).2.1 "granted" rfl).1,
   ((getDenoPermissionGating exDenoBoomCtx "KEY" exStore (by decide)).2.2 "boom" rfl).1⟩

/-- Example adapter every call of which throws with message "boom". -/
def boomAdapter : Adapter :=
  { envGet := fun _ _ => Except.error "boom"
    envSet := fun _ _ _ => Except.error "boom"
    envDelete := fun _ _ => Except.error "boom"
    loadEnvIfNeeded := fun _ => Except.error "boom"
    permissionQuery := fun _ => Except.error "boom" }

/-- Example context on the satisfying host whose adapter always throws. -/
def exBoomCtx : Ctx := { host := exGoodHost, adapter := boomAdapter }

/-- C8: when a collaborator throws during a version-satisfied
operation, the Generic Failure returned carries the original exception
message unchanged — for set and delete on all runtimes, for get on bun
and deno (either permission branch), and for the no-flag branch of the
node get handler. -/
theorem genericFailureKeepsMessage (c : Ctx) (key value m : String) (s : Store)
    (hsat : isSatisfiesVersion c.host = true) :
    UniError.message (UniError.genericError m) = m ∧
    (c.adapter.envSet key value s = Except.error m →
      ((setRuntimeMap c).node key value s).1 = Result.Ng (UniError.genericError m) ∧
      ((setRuntimeMap c).bun key value s).1 = Result.Ng (UniError.genericError m) ∧
      ((setRuntimeMap c).deno key value s).1 = Result.Ng (UniError.genericError m)) ∧
    (c.adapter.envDelete key s = Except.error m →
      ((deleteRuntimeMap c).node key s).1 = Result.Ng (UniError.genericError m) ∧
      ((deleteRuntimeMap c).bun key s).1 = Result.Ng (UniError.genericError m) ∧
      ((deleteRuntimeMap c).deno key s).1 = Result.Ng (UniError.genericError m)) ∧
    (c.adapter.envGet key s = Except.error m →
      ((getRuntimeMap c).bun key s).1 = Result.Ng (UniError.genericError m)) ∧
    (∀ p, c.adapter.permissionQuery "read" = Except.ok p → p ≠ "granted" →
      c.adapter.envGet key s = Except.error m →
      ((getRuntimeMap c).deno key s).1 = Result.Ng (UniError.genericError m)) ∧
    (∀ s1, c.adapter.permissionQuery "read" = Except.ok "granted" →
      c.adapter.loadEnvIfNeeded s = Except.ok s1 →
      c.adapter.envGet key s1 = Except.error m →
      ((getRuntimeMap c).deno key s).1 = Result.Ng (UniError.genericError m)) ∧
    ((∀ a, a ∈ c.host.execArgv → strStartsWith a "--env-file=" = false) →
      ∀ s1, c.adapter.loadEnvIfNeeded s = Except.ok s1 →
        c.adapter.envGet key s1 = Except.error m →
        ((getRuntimeMap c).node key s).1 = Result.Ng (UniError.genericError m)) := by
  refine ⟨rfl, ?_, ?_, ?_, ?_, ?_, ?_⟩
  · intro hset
    simp [setRuntimeMap, hsat, hset]
  · intro hdel
    simp [deleteRuntimeMap, hsat, hdel]
  · intro hget
    simp [getRuntimeMap, hsat, hget]
  · intro p hperm hp hget
    simp [getRuntimeMap, hsat, hperm, hp, hget]
  · intro s1 hperm hload hget
    simp [getRuntimeMap, hsat, hperm, hload, hget]
  · intro hall s1 hload hget
    have hnil : c.host.execArgv.filter (fun x => strStartsWith x "--env-file=") = [] :=
      filter_eq_nil_of_forall hall
    simp [getRuntimeMap, hsat, hnil, hload, hget]

/-- Witness for C8: an adapter throwing "boom" during set yields a
generic failure carrying exactly "boom". -/
theorem genericFailureKeepsMessageWitness :
    ((setRuntimeMap exBoomCtx).node "KEY" "VAL" exStore).1 =
      Result.Ng (UniError.genericError "boom") :=
  ((genericFailureKeepsMessage exBoomCtx "KEY" "VAL" "boom" exStore (by decide)).2.1 rfl).1

/-- C7: no operation partially succeeds.  Set and delete perform at
most the single delegated store call and leave the store untouched on
any failure; a failing get leaves either the original store or the
store produced by the one successful loader call that preceded the
throwing call; and every facade result is a value — Success or Failure
— so no exception crosses the public boundary. -/
theorem operationsAtomic (c : Ctx) (key value : String) (s : Store) :
    ((((setRuntimeMap c).node key value s).2.2 = [] ∨
        ((setRuntimeMap c).node key value s).2.2 = [Event.envSetCall key value]) ∧
      (∀ e, ((setRuntimeMap c).node key value s).1 = Result.Ng e →
        ((setRuntimeMap c).node key value s).2.1 = s)) ∧
    ((((setRuntimeMap c).bun key value s).2.2 = [] ∨
        ((setRuntimeMap c).bun key value s).2.2 = [Event.envSetCall key value]) ∧
      (∀ e, ((setRuntimeMap c).bun key value s).1 = Result.Ng e →
        ((setRuntimeMap c).bun key value s).2.1 = s)) ∧
    ((((setRuntimeMap c).deno key value s).2.2 = [] ∨
        ((setRuntimeMap c).deno key value s).2.2 = [Event.envSetCall key value]) ∧
      (∀ e, ((setRuntimeMap c).deno key value s).1 = Result.Ng e →
        ((setRuntimeMap c).deno key value s).2.1 = s)) ∧
    ((((deleteRuntimeMap c).node key s).2.2 = [] ∨
        ((deleteRuntimeMap c).node key s).2.2 = [Event.envDeleteCall key]) ∧
      (∀ e, ((deleteRuntimeMap c).node key s).1 = Result.Ng e →
        ((deleteRuntimeMap c).node key s).2.1 = s)) ∧
    ((((deleteRuntimeMap c).bun key s).2.2 = [] ∨
        ((deleteRuntimeMap c).bun key s).2.2 = [Event.envDeleteCall key]) ∧
      (∀ e, ((deleteRuntimeMap c).bun key s).1 = Result.Ng e →
        ((deleteRuntimeMap c).bun key s).2.1 = s)) ∧
    ((((deleteRuntimeMap c).deno key s).2.2 = [] ∨
        ((deleteRuntimeMap c).deno key s).2.2 = [Event.envDeleteCall key]) ∧
      (∀ e, ((deleteRuntimeMap c).deno key s).1 = Result.Ng e →
        ((deleteRuntimeMap c).deno key s).2.1 = s)) ∧
    (∀ e, ((getRuntimeMap c).node key s).1 = Result.Ng e →
      (((getRuntimeMap c).node key s).2.1 = s ∨
        c.adapter.loadEnvIfNeeded s = Except.ok ((getRuntimeMap c).node key s).2.1)) ∧
    (∀ e, ((getRuntimeMap c).bun key s).1 = Result.Ng e →
      ((getRuntimeMap c).bun key s).2.1 = s) ∧
    (∀ e, ((getRuntimeMap c).deno key s).1 = Result.Ng e →
      (((getRuntimeMap c).deno key s).2.1 = s ∨
        c.adapter.loadEnvIfNeeded s = Except.ok ((getRuntimeMap c).deno key s).2.1)) ∧
    (∀ o, UniEnv.set c key value s = some o →
      (∃ v, o.1 = Result.Ok v) ∨ (∃ e, o.1 = Result.Ng e)) ∧
    (∀ o, UniEnv.get c key s = some o →
      (∃ v, o.1 = Result.Ok v) ∨ (∃ e, o.1 = Result.Ng e)) ∧
    (∀ o, UniEnv.delete c key s = some o →
      (∃ v, o.1 = Result.Ok v) ∨ (∃ e, o.1 = Result.Ng e)) := by
  refine ⟨?_, ?_, ?_, ?_, ?_, ?_, ?_, ?_, ?_, ?_, ?_, ?_⟩
  · by_cases hv : isSatisfiesVersion c.host
    · cases hx : c.adapter.envSet key value s <;> simp [setRuntimeMap, hv, hx]
    · simp [setRuntimeMap, hv]
  · by_cases hv : isSatisfiesVersion c.host
    · cases hx : c.adapter.envSet key value s <;> simp [setRuntimeMap, hv, hx]
    · simp [setRuntimeMap, hv]
  · by_cases hv : isSatisfiesVersion c.host
    · cases hx : c.adapter.envSet key value s <;> simp [setRuntimeMap, hv, hx]
    · simp [setRuntimeMap, hv]
  · by_cases hv : isSatisfiesVersion c.host
    · cases hx : c.adapter.envDelete key s <;> simp [deleteRuntimeMap, hv, hx]
    · simp [deleteRuntimeMap, hv]
  · by_cases hv : isSatisfiesVersion c.host
    · cases hx : c.adapter.envDelete key s <;> simp [deleteRuntimeMap, hv, hx]
    · simp [deleteRuntimeMap, hv]
  · by_cases hv : isSatisfiesVersion c.host
    · cases hx : c.adapter.envDelete key s <;> simp [deleteRuntimeMap, hv, hx]
    · simp [deleteRuntimeMap, hv]
  · by_cases hv : isSatisfiesVersion c.host
    · by_cases hf :
        (c.host.execArgv.filter (fun a => strStartsWith a "--env-file=")).length ≠ 0
      · cases hx : c.adapter.envGet key s <;> simp [getRuntimeMap, hv, hf, hx]
      · cases hl : c.adapter.loadEnvIfNeeded s with
        | error m => simp [getRuntimeMap, hv, hf, hl]
        | ok s1 =>
          cases hx : c.adapter.envGet key s1 <;> simp [getRuntimeMap, hv, hf, hl, hx]
    · simp [getRuntimeMap, hv]
  · by_cases hv : isSatisfiesVersion c.host
    · cases hx : c.adapter.envGet key s <;> simp [getRuntimeMap, hv, hx]
    · simp [getRuntimeMap, hv]
  · by_cases hv : isSatisfiesVersion c.host
    · cases hq : c.adapter.permissionQuery "read" with
      | error m => simp [getRuntimeMap, hv, hq]
      | ok p =>
        by_cases hp : p = "granted"
        · subst hp
          cases hl : c.adapter.loadEnvIfNeeded s with
          | error m => simp [getRuntimeMap, hv, hq, hl]
          | ok s1 =>
            cases hx : c.adapter.envGet key s1 <;> simp [getRuntimeMap, hv, hq, hl, hx]
        · cases hx : c.adapter.envGet key s <;> simp [getRuntimeMap, hv, hq, hp, hx]
    · simp [getRuntimeMap, hv]
  · intro o ho
    cases hr : o.1 with
    | Ok v => exact Or.inl ⟨v, rfl⟩
    | Ng e => exact Or.inr ⟨e, rfl⟩
  · intro o ho
    cases hr : o.1 with
    | Ok v => exact Or.inl ⟨v, rfl⟩
    | Ng e => exact Or.inr ⟨e, rfl⟩
  · intro o ho
    cases hr : o.1 with
    | Ok v => exact Or.inl ⟨v, rfl⟩
    | Ng e => exact Or.inr ⟨e, rfl⟩

/-- Witness for C7: on a host whose adapter throws, a failed set leaves
the store untouched. -/
theorem operationsAtomicWitness :
    ((setRuntimeMap exBoomCtx).node "KEY" "VAL" exStore).2.1 = exStore :=
  (operationsAtomic exBoomCtx "KEY" "VAL" exStore).1.2
    (UniError.genericError "boom") (by decide)

/-- Helper: a successful adapter set binds the key in the table. -/
lemma stdStoreSet_table_self (key value : String) (s : Store) :
    (stdStoreSet key value s).table key = some value := by
  simp [stdStoreSet]

/-- Helper: a successful adapter delete unbinds the key in the table. -/
lemma stdStoreDelete_table_self (key : String) (s : Store) :
    (stdStoreDelete key s).table key = none := by
  simp [stdStoreDelete]

/-- Helper: loading the env file never overrides a key already bound. -/
lemma stdLoad_table_of_some {file : String → Option String} {s : Store}
    {key v : String} (h : s.table key = some v) :
    (stdLoad file s).table key = some v := by
  unfold stdLoad
  split
  · exact h
  · simp [h]

/-- Helper: loading the env file leaves a key absent when neither the
table nor the file binds it. -/
lemma stdLoad_table_of_none {file : String → Option String} {s : Store}
    {key : String} (h1 : s.table key = none) (h2 : file key = none) :
    (stdLoad file s).table key = none := by
  unfold stdLoad
  split
  · exact h1
  · simp [h1, h2]

/-- Helper: on the honest host model, a version-satisfied facade set
succeeds and performs exactly the store update. -/
lemma stdSetEq (name requireVer currentVer perm key value : String)
    (argv : List String) (file : String → Option String) (t : Store)
    (hname : name = "node" ∨ name = "bun" ∨ name = "deno")
    (hsat : moreThan requireVer currentVer = true) :
    UniEnv.set (stdCtx name requireVer currentVer argv file perm) key value t =
      some (Result.Ok (), stdStoreSet key value t, [Event.envSetCall key value]) := by
  rcases hname with h | h | h <;> subst h <;>
    simp [UniEnv.set, runtimeMapLookup, stdCtx, setRuntimeMap, stdAdapter,
      isSatisfiesVersion, hsat]

/-- Helper: on the honest host model, a version-satisfied facade delete
succeeds and performs exactly the store update. -/
lemma stdDeleteEq (name requireVer currentVer perm key : String)
    (argv : List String) (file : String → Option String) (t : Store)
    (hname : name = "node" ∨ name = "bun" ∨ name = "deno")
    (hsat : moreThan requireVer currentVer = true) :
    UniEnv.delete (stdCtx name requireVer currentVer argv file perm) key t =
      some (Result.Ok (), stdStoreDelete key t, [Event.envDeleteCall key]) := by
  rcases hname with h | h | h <;> subst h <;>
    simp [UniEnv.delete, runtimeMapLookup, stdCtx, deleteRuntimeMap, stdAdapter,
      isSatisfiesVersion, hsat]

/-- Helper: on the honest host model, a version-satisfied facade get
succeeds, returns the final table's binding for the key, and the final
store is the input store or its env-file-loaded variant. -/
lemma stdGetCharacterization (name requireVer currentVer perm key : String)
    (argv : List String) (file : String → Option String) (t : Store)
    (hname : name = "node" ∨ name = "bun" ∨ name = "deno")
    (hsat : moreThan requireVer currentVer = true) :
    ∃ o, UniEnv.get (stdCtx name requireVer currentVer argv file perm) key t = some o ∧
      o.1 = Result.Ok (o.2.1.table key) ∧
      (o.2.1 = t ∨ o.2.1 = stdLoad file t) := by
  rcases hname with h | h | h <;> subst h
  · by_cases hf : (argv.filter (fun a => strStartsWith a "--env-file=")).length ≠ 0
    · simp [UniEnv.get, runtimeMapLookup, stdCtx, getRuntimeMap, stdAdapter,
        isSatisfiesVersion, hsat, hf]
    · simp [UniEnv.get, runtimeMapLookup, stdCtx, getRuntimeMap, stdAdapter,
        isSatisfiesVersion, hsat, hf]
  · simp [UniEnv.get, runtimeMapLookup, stdCtx, getRuntimeMap, stdAdapter,
      isSatisfiesVersion, hsat]
  · by_cases hp : perm = "granted"
    · simp [UniEnv.get, runtimeMapLookup, stdCtx, getRuntimeMap, stdAdapter,
        isSatisfiesVersion, hsat, hp]
    · simp [UniEnv.get, runtimeMapLookup, stdCtx, getRuntimeMap, stdAdapter,
        isSatisfiesVersion, hsat, hp]

/-- C5: on every runtime, when the version gate passes (over the honest
host model, with the env file not binding the key), set(k, v) followed
by get(k) returns Success carrying the present string v, and delete(k)
after the set makes a subsequent get(k) return Success with an absent
payload. -/
theorem setGetDeleteRoundTrip (name requireVer currentVer perm key value : String)
    (argv : List String) (file : String → Option String) (s : Store)
    (hname : name = "node" ∨ name = "bun" ∨ name = "deno")
    (hsat : moreThan requireVer currentVer = true)
    (hfile : file key = none) :
    ∃ o1, UniEnv.set (stdCtx name requireVer currentVer argv file perm) key value s = some o1 ∧
      o1.1 = Result.Ok () ∧
      ∃ o2, UniEnv.get (stdCtx name requireVer currentVer argv file perm) key o1.2.1 = some o2 ∧
        o2.1 = Result.Ok (some value) ∧
        ∃ o3, UniEnv.delete (stdCtx name requireVer currentVer argv file perm) key o2.2.1 = some o3 ∧
          o3.1 = Result.Ok () ∧
          ∃ o4, UniEnv.get (stdCtx name requireVer currentVer argv file perm) key o3.2.1 = some o4 ∧
            o4.1 = Result.Ok none := by
  refine ⟨_, stdSetEq name requireVer currentVer perm key value argv file s hname hsat,
    rfl, ?_⟩
  obtain ⟨o2, ho2, ho2r, ho2s⟩ :=
    stdGetCharacterization name requireVer currentVer perm key argv file
      (stdStoreSet key value s) hname hsat
  have h2 : o2.2.1.table key = some value := by
    rcases ho2s with h | h <;> rw [h]
    · exact stdStoreSet_table_self key value s
    · exact stdLoad_table_of_some (stdStoreSet_table_self key value s)
  refine ⟨o2, ho2, by rw [ho2r, h2], ?_⟩
  refine ⟨_, stdDeleteEq name requireVer currentVer perm key argv file o2.2.1 hname hsat,
    rfl, ?_⟩
  obtain ⟨o4, ho4, ho4r, ho4s⟩ :=
    stdGetCharacterization name requireVer currentVer perm key argv file
      (stdStoreDelete key o2.2.1) hname hsat
  have h4 : o4.2.1.table key = none := by
    rcases ho4s with h | h <;> rw [h]
    · exact stdStoreDelete_table_self key o2.2.1
    · exact stdLoad_table_of_none (stdStoreDelete_table_self key o2.2.1) hfile
  exact ⟨o4, ho4, by rw [ho4r, h4]⟩

/-- Witness for C5 on a concrete deno host with an empty env file. -/
theorem setGetDeleteRoundTripWitness :
    ∃ o1, UniEnv.set (stdCtx "deno" "1.30.0" "1.40.0" [] (fun _ => none) "granted")
        "KEY" "VAL" exStore = some o1 ∧
      o1.1 = Result.Ok () ∧
      ∃ o2, UniEnv.get (stdCtx "deno" "1.30.0" "1.40.0" [] (fun _ => none) "granted")
          "KEY" o1.2.1 = some o2 ∧
        o2.1 = Result.Ok (some "VAL") ∧
        ∃ o3, UniEnv.delete (stdCtx "deno" "1.30.0" "1.40.0" [] (fun _ => none) "granted")
            "KEY" o2.2.1 = some o3 ∧
          o3.1 = Result.Ok () ∧
          ∃ o4, UniEnv.get (stdCtx "deno" "1.30.0" "1.40.0" [] (fun _ => none) "granted")
              "KEY" o3.2.1 = some o4 ∧
            o4.1 = Result.Ok none :=
  setGetDeleteRoundTrip "deno" "1.30.0" "1.40.0" "granted" "KEY" "VAL" []
    (fun _ => none) exStore (Or.inr (Or.inr rfl)) (by decide) rfl

end Unienv
